import Mathlib

/-!
Verification of the e3-core pytest plugin (`src/e3/pytest.py`).

The development shallowly embeds the plugin's logic in Lean:

* the exclude-pattern list assembled in `pytest_sessionfinish` and handed to
  the coverage engine (`excludePatterns`);
* the coverage-database path rewriter `fix_coverage_paths`, modelled over an
  explicit filesystem state (an association list from path to file content),
  with the external collaborators (`e3.os.fs.mv`, `os.unlink`, and the
  coverage engine's `PathAliases` / `CoverageData` merge) modelled from the
  specification's description of their behaviour;
* the control flow of the `pytest_sessionfinish` hook (exit-status handling
  and the gating of the rewriter invocation);
* the `pytest_runtest_makereport` hook's update of the module-level
  `test_errors` flag;
* the `require_tool` fixture factory.
-/

/-- The tuple `DEFAULT_EXCLUDE_LIST` at the top of `src/e3/pytest.py`. -/
def DEFAULT_EXCLUDE_LIST : List String :=
  [ "all: no cover"
  , "if TYPE_CHECKING:"
  , "@abstractmethod"
  , "# os-specific"
  , "defensive code"
  , "assert_never()"
  ]

/-- The tuple of OS names iterated over in `pytest_sessionfinish`
(line 130 of `src/e3/pytest.py`). -/
def KNOWN_OS_NAMES : List String :=
  ["darwin", "linux", "solaris", "windows", "bsd", "aix"]

/-- The full list of exclude patterns that `pytest_sessionfinish` passes to
`cov.exclude`, in call order (lines 123-143 of `src/e3/pytest.py`):
the default list, the `<os>-only` markers for every known OS other than the
current one, the platform-conditional `win32` marker (plus the
`unix: no cover` marker on non-windows hosts), and finally the
`<os>: no cover` marker for the current OS. -/
def excludePatterns (os_name : String) : List String :=
  DEFAULT_EXCLUDE_LIST
    ++ (KNOWN_OS_NAMES.filter (fun o => o != os_name)).map (fun o => o ++ "-only")
    ++ (if os_name = "windows" then
          ["if sys.platform != \"win32\":"]
        else
          ["if sys.platform == \"win32\":", "unix: no cover"])
    ++ [os_name ++ ": no cover"]

/-- C5: on a linux host the exclude list contains the `-only` markers of the
other five known OSes and not `linux-only`; in general, for every current OS
among the six known names, the `<o>-only` marker is in the exclude list
exactly when `o` is a known OS different from the current one. -/
theorem excludePatterns_os_only_markers :
    ("darwin-only" ∈ excludePatterns "linux"
      ∧ "windows-only" ∈ excludePatterns "linux"
      ∧ "solaris-only" ∈ excludePatterns "linux"
      ∧ "bsd-only" ∈ excludePatterns "linux"
      ∧ "aix-only" ∈ excludePatterns "linux"
      ∧ "linux-only" ∉ excludePatterns "linux")
    ∧ ∀ os ∈ KNOWN_OS_NAMES, ∀ o ∈ KNOWN_OS_NAMES,
        ((o ++ "-only") ∈ excludePatterns os ↔ o ≠ os) := by
  constructor
  · decide
  · decide

/-- Witness for `excludePatterns_os_only_markers`: instantiating the
quantified part at the concrete pair (current OS linux, marker OS windows). -/
theorem excludePatterns_os_only_markers_witness :
    "linux" ∈ KNOWN_OS_NAMES ∧ "windows" ∈ KNOWN_OS_NAMES
      ∧ (("windows" ++ "-only") ∈ excludePatterns "linux" ↔ "windows" ≠ "linux") :=
  ⟨by decide, by decide,
    excludePatterns_os_only_markers.2 "linux" (by decide) "windows" (by decide)⟩

/-- C6: on a windows host the exclude list contains the negative win32
platform marker and not the `unix: no cover` marker; on every non-windows
host it contains the positive win32 platform marker and the
`unix: no cover` marker. -/
theorem excludePatterns_win32_markers :
    "if sys.platform != \"win32\":" ∈ excludePatterns "windows"
    ∧ "unix: no cover" ∉ excludePatterns "windows"
    ∧ ∀ os_name : String, os_name ≠ "windows" →
        ("if sys.platform == \"win32\":" ∈ excludePatterns os_name
          ∧ "unix: no cover" ∈ excludePatterns os_name) := by
  refine ⟨by decide, by decide, fun os_name h => ⟨?_, ?_⟩⟩
  · simp [excludePatterns, if_neg h]
  · simp [excludePatterns, if_neg h]

/-- Witness for `excludePatterns_win32_markers`: the quantified part at the
concrete non-windows OS name linux. -/
theorem excludePatterns_win32_markers_witness :
    "linux" ≠ "windows"
    ∧ ("if sys.platform == \"win32\":" ∈ excludePatterns "linux"
        ∧ "unix: no cover" ∈ excludePatterns "linux") :=
  ⟨by decide, excludePatterns_win32_markers.2.2 "linux" (by decide)⟩

/-- A file on disk, as far as the rewriter can observe it: either a valid
coverage database (a map from executed-file identifiers to per-line records,
kept as an association list) or an unparsable blob. -/
inductive File where
  | db (entries : List (String × List Nat))
  | corrupt
deriving DecidableEq

/-- The filesystem state threaded through the rewriter: an association list
from path to file content. -/
abbrev FS : Type := List (String × File)

/-- Look a path up in the filesystem. -/
def lookupFile (fs : FS) (p : String) : Option File :=
  match fs with
  | [] => none
  | e :: rest => if e.1 = p then some e.2 else lookupFile rest p

/-- Remove a path from the filesystem. -/
def eraseFile (fs : FS) (p : String) : FS :=
  match fs with
  | [] => []
  | e :: rest => if e.1 = p then eraseFile rest p else e :: eraseFile rest p

/-- Store file content at a path, replacing any previous content. -/
def writeFile (fs : FS) (p : String) (f : File) : FS :=
  (p, f) :: eraseFile fs p

/-- Modelled from the spec: `e3.os.fs.mv` (the repository's `mv` helper is
not under `src/`). Per the spec it atomically moves the file at `src` to
`target`, and "if the source file cannot be moved (permissions, missing
file), the operation fails and no rewrite occurs". -/
def mv (src target : String) (fs : FS) : Option FS :=
  match lookupFile fs src with
  | none => none
  | some f => some (writeFile (eraseFile fs src) target f)

/-- `os.unlink`: delete the file at `p`, failing when it does not exist. -/
def unlink (p : String) (fs : FS) : Option FS :=
  match lookupFile fs p with
  | none => none
  | some _ => some (eraseFile fs p)

/-- Modelled from the spec: `CoverageData.read` of the external coverage
engine, which loads the database at `p` and fails when the file is missing
or cannot be parsed ("if the old database cannot be parsed, the operation
fails after the move"). -/
def readCoverageData (fs : FS) (p : String) : Option (List (String × List Nat)) :=
  match lookupFile fs p with
  | some (File.db entries) => some entries
  | some File.corrupt => none
  | none => none

/-- Modelled from the spec: a `PathAliases` object holding the single alias
rule added by `fix_coverage_paths` — "an ordered pair (origin-prefix,
replacement-prefix)". -/
structure PathAliases where
  origin : String
  result : String
deriving DecidableEq

/-- Modelled from the spec: application of the alias rule to one file
identifier — "applied to a file identifier by replacing the origin-prefix
with the replacement-prefix when the identifier starts with the
origin-prefix; identifiers not matching any rule pass through unchanged". -/
def PathAliases.map (pa : PathAliases) (ident : String) : String :=
  if pa.origin.data.isPrefixOf ident.data then
    pa.result ++ String.mk (ident.data.drop pa.origin.data.length)
  else
    ident

/-- Modelled from the spec: `CoverageData.update` of the external coverage
engine, merging "all records from the old database into the new one,
applying the Path Alias Rule to every file identifier during the merge". -/
def updateWithAliases (pa : PathAliases) (old : List (String × List Nat)) :
    List (String × List Nat) :=
  old.map (fun e => (pa.map e.1, e.2))

/-- The possible failures of `fix_coverage_paths`, by the operation that
raised: the initial `mv`, the load/parse of the old database, or the final
`os.unlink` of the temporary file. -/
inductive CoverageError where
  | mvFailed
  | parseFailed
  | unlinkFailed
deriving DecidableEq

/-- `fix_coverage_paths` of `src/e3/pytest.py` (lines 165-188), over the
explicit filesystem state. `tmp` is the fresh name produced by
`NamedTemporaryFile` (created next to `cov_db` and deleted again by
`close()`, so at entry no file exists at `tmp`). The body mirrors the
source's `try`/`finally`: move the database aside to `tmp`, read it, merge
it under the alias rule into a fresh database written at `cov_db`, and
unconditionally `os.unlink` the temporary file, a late `unlink` failure
superseding any earlier error just as a `finally`-raised exception does. -/
def fix_coverage_paths (origin_dir new_dir cov_db tmp : String) (fs : FS) :
    FS × Option CoverageError :=
  let paths : PathAliases := ⟨origin_dir, new_dir⟩
  match mv cov_db tmp fs with
  | none =>
    -- the `finally` clause still runs: `os.unlink` on the never-created
    -- temporary path raises in turn, superseding the `mv` error
    match unlink tmp fs with
    | none => (fs, some CoverageError.unlinkFailed)
    | some fs2 => (fs2, some CoverageError.mvFailed)
  | some fs1 =>
    let step : FS × Option CoverageError :=
      match readCoverageData fs1 tmp with
      | none => (fs1, some CoverageError.parseFailed)
      | some old_entries =>
        (writeFile fs1 cov_db (File.db (updateWithAliases paths old_entries)), none)
    match unlink tmp step.1 with
    | none => (step.1, some CoverageError.unlinkFailed)
    | some fs2 => (fs2, step.2)

theorem lookupFile_eraseFile (fs : FS) (p q : String) :
    lookupFile (eraseFile fs p) q = if q = p then none else lookupFile fs q := by
  induction fs with
  | nil => simp [eraseFile, lookupFile]
  | cons e rest ih =>
    by_cases h1 : e.1 = p
    · simp only [eraseFile, if_pos h1, ih]
      by_cases h2 : q = p
      · rw [if_pos h2, if_pos h2]
      · rw [if_neg h2, if_neg h2]
        simp only [lookupFile]
        rw [if_neg (show ¬ e.1 = q from fun h => h2 (h.symm.trans h1))]
    · simp only [eraseFile, if_neg h1, lookupFile, ih]
      by_cases he : e.1 = q
      · rw [if_pos he, if_neg (show ¬ q = p from fun h => h1 (he.trans h)), if_pos he]
      · rw [if_neg he]
        by_cases h2 : q = p
        · rw [if_pos h2, if_pos h2]
        · rw [if_neg h2, if_neg h2, if_neg he]

theorem lookupFile_writeFile (fs : FS) (p q : String) (f : File) :
    lookupFile (writeFile fs p f) q = if q = p then some f else lookupFile fs q := by
  by_cases h : q = p
  · simp [writeFile, lookupFile, h]
  · simp [writeFile, lookupFile, lookupFile_eraseFile, h,
      show ¬ p = q from fun hh => h hh.symm]

theorem string_append_assoc (a b c : String) : a ++ b ++ c = a ++ (b ++ c) := by
  apply String.ext
  simp only [String.data_append, List.append_assoc]

theorem PathAliases.map_append (o r t : String) :
    PathAliases.map ⟨o, r⟩ (o ++ t) = r ++ t := by
  have hp : o.data.isPrefixOf (o.data ++ t.data) = true := by
    rw [List.isPrefixOf_iff_prefix]
    exact List.prefix_append o.data t.data
  simp only [PathAliases.map, String.data_append, hp, if_true]
  rw [List.drop_left]

theorem PathAliases.map_unmatched (pa : PathAliases) (ident : String)
    (h : pa.origin.data.isPrefixOf ident.data = false) : pa.map ident = ident := by
  simp [PathAliases.map, h]

/-- Evaluation of `fix_coverage_paths` on a well-formed input: the database
at `cov_db` holds parsable entries and the temporary name is fresh. The run
succeeds and the resulting filesystem is the input with the database
replaced by the alias-rewritten entries and the temporary file gone. -/
theorem fix_coverage_paths_success_eq
    (origin_dir new_dir cov_db tmp : String) (fs : FS)
    (entries : List (String × List Nat))
    (hdb : lookupFile fs cov_db = some (File.db entries))
    (hne : tmp ≠ cov_db) :
    fix_coverage_paths origin_dir new_dir cov_db tmp fs
      = (eraseFile
          (writeFile (writeFile (eraseFile fs cov_db) tmp (File.db entries)) cov_db
            (File.db (updateWithAliases ⟨origin_dir, new_dir⟩ entries)))
          tmp,
         none) := by
  have hmv : mv cov_db tmp fs
      = some (writeFile (eraseFile fs cov_db) tmp (File.db entries)) := by
    simp [mv, hdb]
  have h1 : lookupFile (writeFile (eraseFile fs cov_db) tmp (File.db entries)) tmp
      = some (File.db entries) := by
    simp [lookupFile_writeFile]
  have hread : readCoverageData (writeFile (eraseFile fs cov_db) tmp (File.db entries)) tmp
      = some entries := by
    simp [readCoverageData, h1]
  have h2 : lookupFile
      (writeFile (writeFile (eraseFile fs cov_db) tmp (File.db entries)) cov_db
        (File.db (updateWithAliases ⟨origin_dir, new_dir⟩ entries))) tmp
      = some (File.db entries) := by
    rw [lookupFile_writeFile, if_neg hne, h1]
  have hunl : unlink tmp
      (writeFile (writeFile (eraseFile fs cov_db) tmp (File.db entries)) cov_db
        (File.db (updateWithAliases ⟨origin_dir, new_dir⟩ entries)))
      = some (eraseFile
          (writeFile (writeFile (eraseFile fs cov_db) tmp (File.db entries)) cov_db
            (File.db (updateWithAliases ⟨origin_dir, new_dir⟩ entries))) tmp) := by
    simp [unlink, h2]
  simp only [fix_coverage_paths, hmv, hread, hunl]

/-- On a well-formed input, the run succeeds and looking the database path
up in the result yields exactly the alias-rewritten entries. -/
theorem fix_coverage_paths_success_lookup
    (origin_dir new_dir cov_db tmp : String) (fs : FS)
    (entries : List (String × List Nat))
    (hdb : lookupFile fs cov_db = some (File.db entries))
    (hne : tmp ≠ cov_db) :
    (fix_coverage_paths origin_dir new_dir cov_db tmp fs).2 = none
    ∧ lookupFile (fix_coverage_paths origin_dir new_dir cov_db tmp fs).1 cov_db
        = some (File.db (updateWithAliases ⟨origin_dir, new_dir⟩ entries)) := by
  rw [fix_coverage_paths_success_eq origin_dir new_dir cov_db tmp fs entries hdb hne]
  refine ⟨rfl, ?_⟩
  rw [lookupFile_eraseFile, if_neg (Ne.symm hne), lookupFile_writeFile, if_pos rfl]

/-- C1: for every coverage database containing a file identifier of the form
`origin_dir/x`, a run of `fix_coverage_paths (origin_dir, new_dir, cov_db)`
completes successfully and the database at `cov_db` afterwards contains the
identifier `new_dir/x` with exactly the line records that the input database
recorded under `origin_dir/x`. -/
theorem fix_coverage_paths_rewrites_origin_identifier
    (origin_dir new_dir cov_db tmp x : String) (lines : List Nat)
    (fs : FS) (entries : List (String × List Nat))
    (hdb : lookupFile fs cov_db = some (File.db entries))
    (hne : tmp ≠ cov_db)
    (hmem : (origin_dir ++ "/" ++ x, lines) ∈ entries) :
    (fix_coverage_paths origin_dir new_dir cov_db tmp fs).2 = none
    ∧ ∃ entries2,
        lookupFile (fix_coverage_paths origin_dir new_dir cov_db tmp fs).1 cov_db
          = some (File.db entries2)
        ∧ (new_dir ++ "/" ++ x, lines) ∈ entries2 := by
  obtain ⟨h2none, hlook⟩ :=
    fix_coverage_paths_success_lookup origin_dir new_dir cov_db tmp fs entries hdb hne
  refine ⟨h2none, updateWithAliases ⟨origin_dir, new_dir⟩ entries, hlook, ?_⟩
  have hmap : PathAliases.map ⟨origin_dir, new_dir⟩ (origin_dir ++ "/" ++ x)
      = new_dir ++ "/" ++ x := by
    rw [string_append_assoc origin_dir "/" x, PathAliases.map_append,
      ← string_append_assoc]
  have hm :=
    List.mem_map_of_mem
      (fun e : String × List Nat => ((⟨origin_dir, new_dir⟩ : PathAliases).map e.1, e.2))
      hmem
  rw [updateWithAliases]
  simpa [hmap] using hm

/-- The filesystem of the spec's end-to-end scenario: the database at
`/tmp/db` holds the single entry mapping `/build/pkg/mod.py` to lines
1, 2, 3. -/
def demoFS : FS := [("/tmp/db", File.db [("/build/pkg/mod.py", [1, 2, 3])])]

/-- Witness for `fix_coverage_paths_rewrites_origin_identifier`, at the
spec's end-to-end scenario: rewriting `/tmp/db` with
`(/build/pkg, /src)` yields a database holding `/src/mod.py` with lines
1, 2, 3. -/
theorem fix_coverage_paths_rewrites_origin_identifier_witness :
    (lookupFile demoFS "/tmp/db" = some (File.db [("/build/pkg/mod.py", [1, 2, 3])])
      ∧ ("/tmp/old0" : String) ≠ "/tmp/db"
      ∧ ("/build/pkg" ++ "/" ++ "mod.py", ([1, 2, 3] : List Nat))
          ∈ [("/build/pkg/mod.py", ([1, 2, 3] : List Nat))])
    ∧ ((fix_coverage_paths "/build/pkg" "/src" "/tmp/db" "/tmp/old0" demoFS).2 = none
      ∧ ∃ entries2,
          lookupFile (fix_coverage_paths "/build/pkg" "/src" "/tmp/db" "/tmp/old0" demoFS).1
              "/tmp/db"
            = some (File.db entries2)
          ∧ ("/src" ++ "/" ++ "mod.py", ([1, 2, 3] : List Nat)) ∈ entries2) :=
  ⟨⟨by decide, by decide, by decide⟩,
    fix_coverage_paths_rewrites_origin_identifier "/build/pkg" "/src" "/tmp/db" "/tmp/old0"
      "mod.py" [1, 2, 3] demoFS [("/build/pkg/mod.py", [1, 2, 3])]
      (by decide) (by decide) (by decide)⟩

/-- C3: every file identifier of the input database that does not start with
`origin_dir` is carried into the output database unchanged, with its line
records intact, and the run still completes successfully. -/
theorem fix_coverage_paths_preserves_unmatched_identifier
    (origin_dir new_dir cov_db tmp ident : String) (lines : List Nat)
    (fs : FS) (entries : List (String × List Nat))
    (hdb : lookupFile fs cov_db = some (File.db entries))
    (hne : tmp ≠ cov_db)
    (hpre : origin_dir.data.isPrefixOf ident.data = false)
    (hmem : (ident, lines) ∈ entries) :
    (fix_coverage_paths origin_dir new_dir cov_db tmp fs).2 = none
    ∧ ∃ entries2,
        lookupFile (fix_coverage_paths origin_dir new_dir cov_db tmp fs).1 cov_db
          = some (File.db entries2)
        ∧ (ident, lines) ∈ entries2 := by
  obtain ⟨h2none, hlook⟩ :=
    fix_coverage_paths_success_lookup origin_dir new_dir cov_db tmp fs entries hdb hne
  refine ⟨h2none, updateWithAliases ⟨origin_dir, new_dir⟩ entries, hlook, ?_⟩
  have hmap : PathAliases.map ⟨origin_dir, new_dir⟩ ident = ident :=
    PathAliases.map_unmatched ⟨origin_dir, new_dir⟩ ident hpre
  have hm :=
    List.mem_map_of_mem
      (fun e : String × List Nat => ((⟨origin_dir, new_dir⟩ : PathAliases).map e.1, e.2))
      hmem
  rw [updateWithAliases]
  simpa [hmap] using hm

/-- A database whose only identifier does not start with the origin prefix
`/build/pkg` used in the witnesses. -/
def demoFS2 : FS := [("/tmp/db", File.db [("/other/lib.py", [4, 5])])]

/-- Witness for `fix_coverage_paths_preserves_unmatched_identifier`: the
identifier `/other/lib.py` does not start with `/build/pkg` and survives the
rewrite unchanged together with its lines 4, 5. -/
theorem fix_coverage_paths_preserves_unmatched_identifier_witness :
    (lookupFile demoFS2 "/tmp/db" = some (File.db [("/other/lib.py", [4, 5])])
      ∧ ("/tmp/old2" : String) ≠ "/tmp/db"
      ∧ ("/build/pkg" : String).data.isPrefixOf ("/other/lib.py" : String).data = false
      ∧ (("/other/lib.py" : String), ([4, 5] : List Nat))
          ∈ [("/other/lib.py", ([4, 5] : List Nat))])
    ∧ ((fix_coverage_paths "/build/pkg" "/src" "/tmp/db" "/tmp/old2" demoFS2).2 = none
      ∧ ∃ entries2,
          lookupFile (fix_coverage_paths "/build/pkg" "/src" "/tmp/db" "/tmp/old2" demoFS2).1
              "/tmp/db"
            = some (File.db entries2)
          ∧ (("/other/lib.py" : String), ([4, 5] : List Nat)) ∈ entries2) :=
  ⟨⟨by decide, by decide, by decide, by decide⟩,
    fix_coverage_paths_preserves_unmatched_identifier "/build/pkg" "/src" "/tmp/db"
      "/tmp/old2" "/other/lib.py" [4, 5] demoFS2 [("/other/lib.py", [4, 5])]
      (by decide) (by decide) (by decide) (by decide)⟩

/-- C2: once the move succeeded, the temporary moved-aside file is deleted
on every exit path of `fix_coverage_paths`: after a successful rewrite no
file exists at the temporary path, and when the old database cannot be
parsed the run reports the parse error to the caller while the temporary
file is still gone. -/
theorem fix_coverage_paths_deletes_tmp
    (origin_dir new_dir cov_db tmp : String) (f : File) (fs : FS)
    (hdb : lookupFile fs cov_db = some f)
    (hne : tmp ≠ cov_db) :
    lookupFile (fix_coverage_paths origin_dir new_dir cov_db tmp fs).1 tmp = none
    ∧ ((fix_coverage_paths origin_dir new_dir cov_db tmp fs).2
        = some CoverageError.parseFailed ↔ f = File.corrupt) := by
  cases f with
  | db entries =>
    rw [fix_coverage_paths_success_eq origin_dir new_dir cov_db tmp fs entries hdb hne]
    constructor
    · simp [lookupFile_eraseFile]
    · simp
  | corrupt =>
    have hmv : mv cov_db tmp fs
        = some (writeFile (eraseFile fs cov_db) tmp File.corrupt) := by
      simp [mv, hdb]
    have h1 : lookupFile (writeFile (eraseFile fs cov_db) tmp File.corrupt) tmp
        = some File.corrupt := by
      simp [lookupFile_writeFile]
    have hread : readCoverageData (writeFile (eraseFile fs cov_db) tmp File.corrupt) tmp
        = none := by
      simp [readCoverageData, h1]
    have hunl : unlink tmp (writeFile (eraseFile fs cov_db) tmp File.corrupt)
        = some (eraseFile (writeFile (eraseFile fs cov_db) tmp File.corrupt) tmp) := by
      simp [unlink, h1]
    have hres : fix_coverage_paths origin_dir new_dir cov_db tmp fs
        = (eraseFile (writeFile (eraseFile fs cov_db) tmp File.corrupt) tmp,
           some CoverageError.parseFailed) := by
      simp only [fix_coverage_paths, hmv, hread, hunl]
    rw [hres]
    constructor
    · simp [lookupFile_eraseFile]
    · simp

/-- A filesystem whose database file is unparsable, exercising the
parse-error path of the rewriter. -/
def demoCorruptFS : FS := [("/tmp/db", File.corrupt)]

/-- Witness for `fix_coverage_paths_deletes_tmp` on the corrupt database:
the parse error is reported and the temporary file is gone. -/
theorem fix_coverage_paths_deletes_tmp_witness :
    (lookupFile demoCorruptFS "/tmp/db" = some File.corrupt
      ∧ ("/tmp/old1" : String) ≠ "/tmp/db")
    ∧ (lookupFile
          (fix_coverage_paths "/build/pkg" "/src" "/tmp/db" "/tmp/old1" demoCorruptFS).1
          "/tmp/old1" = none
      ∧ ((fix_coverage_paths "/build/pkg" "/src" "/tmp/db" "/tmp/old1" demoCorruptFS).2
          = some CoverageError.parseFailed ↔ File.corrupt = File.corrupt)) :=
  ⟨⟨by decide, by decide⟩,
    fix_coverage_paths_deletes_tmp "/build/pkg" "/src" "/tmp/db" "/tmp/old1" File.corrupt
      demoCorruptFS (by decide) (by decide)⟩

/-- C4: when no file exists at `cov_db` the initial move fails, the whole
run of `fix_coverage_paths` reports an error, and the filesystem — in
particular the database path — is left exactly as it was: no rewrite
occurs. -/
theorem fix_coverage_paths_mv_failure
    (origin_dir new_dir cov_db tmp : String) (fs : FS)
    (hdb : lookupFile fs cov_db = none)
    (htmp : lookupFile fs tmp = none) :
    (fix_coverage_paths origin_dir new_dir cov_db tmp fs).1 = fs
    ∧ (fix_coverage_paths origin_dir new_dir cov_db tmp fs).2 ≠ none := by
  have hmv : mv cov_db tmp fs = none := by simp [mv, hdb]
  have hunl : unlink tmp fs = none := by simp [unlink, htmp]
  simp [fix_coverage_paths, hmv, hunl]

/-- Witness for `fix_coverage_paths_mv_failure`: on an empty filesystem the
run fails and changes nothing. -/
theorem fix_coverage_paths_mv_failure_witness :
    (lookupFile ([] : FS) "/tmp/db" = none ∧ lookupFile ([] : FS) "/tmp/old3" = none)
    ∧ ((fix_coverage_paths "/build/pkg" "/src" "/tmp/db" "/tmp/old3" ([] : FS)).1 = []
      ∧ (fix_coverage_paths "/build/pkg" "/src" "/tmp/db" "/tmp/old3" ([] : FS)).2 ≠ none) :=
  ⟨⟨by decide, by decide⟩,
    fix_coverage_paths_mv_failure "/build/pkg" "/src" "/tmp/db" "/tmp/old3" []
      (by decide) (by decide)⟩

/-- The parts of the pytest session configuration that
`pytest_sessionfinish` reads: whether the `--e3` flag was given, whether
coverage collection is active (`cov_source` truthy), the optional
`--e3-cov-rewrite` directory pair, the session root path, and the build OS
name reported by `Env().build.os.name`. -/
structure SessionConfig where
  e3 : Bool
  cov_source : Bool
  e3_cov_rewrite : Option (String × String)
  rootpath : String
  os_name : String

/-- The observable outcome of one `pytest_sessionfinish` run: the final
`session.exitstatus`, the calls made to `fix_coverage_paths` (arguments in
call order: origin_dir, new_dir, cov_db), the patterns passed to
`cov.exclude`, whether the coverage-processing branch was entered, and the
error, if any, propagating out of the rewriter. -/
structure SessionResult where
  exitstatus : Nat
  rewriterCalls : List (String × String × String)
  excludes : List String
  covProcessed : Bool
  err : Option CoverageError

/-- `pytest_sessionfinish` of `src/e3/pytest.py` (lines 100-162), over the
explicit filesystem state, with `tmp` the fresh temporary name the rewriter
would use. Mirrors the source's control flow: return immediately unless
`--e3` was given; set the exit status to 3 when the module-level error flag
is up; then, only when coverage is active, optionally rewrite the database
at `<rootpath>/.coverage` (when the `--e3-cov-rewrite` pair was supplied)
and assemble the exclude patterns. An error raised by the rewriter
propagates, so the exclude patterns are not applied in that case. -/
def pytest_sessionfinish (cfg : SessionConfig) (test_errors_flag : Bool)
    (exitstatus : Nat) (fs : FS) (tmp : String) : SessionResult × FS :=
  if cfg.e3 = false then
    (⟨exitstatus, [], [], false, none⟩, fs)
  else
    let es := if test_errors_flag then 3 else exitstatus
    if cfg.cov_source = false then
      (⟨es, [], [], false, none⟩, fs)
    else
      let cov_file := cfg.rootpath ++ "/.coverage"
      match cfg.e3_cov_rewrite with
      | some pair =>
        let r := fix_coverage_paths pair.1 pair.2 cov_file tmp fs
        match r.2 with
        | some e => (⟨es, [(pair.1, pair.2, cov_file)], [], true, some e⟩, r.1)
        | none =>
          (⟨es, [(pair.1, pair.2, cov_file)], excludePatterns cfg.os_name, true, none⟩, r.1)
      | none => (⟨es, [], excludePatterns cfg.os_name, true, none⟩, fs)

/-- A session configuration with the rewrite pair supplied but coverage
collection inactive: `--e3` given, `cov_source` falsy,
`--e3-cov-rewrite /build/pkg /src`. -/
def demoNoCovConfig : SessionConfig :=
  ⟨true, false, some ("/build/pkg", "/src"), "/repo", "linux"⟩

/-- C7 counterexample: supplying the `(origin_dir, new_dir)` option pair
does not by itself make the session-finish hook call the rewriter — with
coverage collection inactive the hook performs no rewriter call even though
the pair is supplied. -/
theorem pytest_sessionfinish_rewriter_pair_not_sufficient :
    demoNoCovConfig.e3_cov_rewrite = some ("/build/pkg", "/src")
    ∧ (pytest_sessionfinish demoNoCovConfig false 1 [] "/tmp/old4").1.rewriterCalls = [] :=
  ⟨rfl, rfl⟩

/-- C7 (amended): inside the coverage-processing step of the session-finish
hook — reached only when the `--e3` option is set and coverage collection is
active — the rewriter invocation is gated by the option pair: when the pair
`(origin_dir, new_dir)` is supplied, `fix_coverage_paths` is called exactly
once, with those two directories and the session's `.coverage` database
path, and the filesystem is transformed by exactly that call; when the pair
is absent, or the hook never reaches the coverage step, the rewriter is not
called. -/
theorem pytest_sessionfinish_rewriter_gated
    (cfg : SessionConfig) (te : Bool) (es : Nat) (fs : FS) (tmp : String) :
    (cfg.e3 = true → cfg.cov_source = true →
      (∀ o n, cfg.e3_cov_rewrite = some (o, n) →
        (pytest_sessionfinish cfg te es fs tmp).1.rewriterCalls
            = [(o, n, cfg.rootpath ++ "/.coverage")]
        ∧ (pytest_sessionfinish cfg te es fs tmp).2
            = (fix_coverage_paths o n (cfg.rootpath ++ "/.coverage") tmp fs).1)
      ∧ (cfg.e3_cov_rewrite = none →
          (pytest_sessionfinish cfg te es fs tmp).1.rewriterCalls = []))
    ∧ ((cfg.e3 = false ∨ cfg.cov_source = false) →
        (pytest_sessionfinish cfg te es fs tmp).1.rewriterCalls = []) := by
  constructor
  · intro he3 hcov
    constructor
    · intro o n hp
      rcases h2 : (fix_coverage_paths o n (cfg.rootpath ++ "/.coverage") tmp fs).2 with _ | e <;>
        simp [pytest_sessionfinish, he3, hcov, hp, h2]
    · intro hp
      simp [pytest_sessionfinish, he3, hcov, hp]
  · intro h
    by_cases he3 : cfg.e3 = false
    · simp [pytest_sessionfinish, he3]
    · rcases h with h | h
      · exact absurd h he3
      · simp [pytest_sessionfinish, he3, h]

/-- A session configuration in which the coverage step is reached and the
rewrite pair is supplied. -/
def demoCovConfig : SessionConfig :=
  ⟨true, true, some ("/build/pkg", "/src"), "/repo", "linux"⟩

/-- Witness for `pytest_sessionfinish_rewriter_gated`: with `--e3`,
coverage active, and the pair `(/build/pkg, /src)` supplied, the hook calls
the rewriter exactly once on `/repo/.coverage`. -/
theorem pytest_sessionfinish_rewriter_gated_witness :
    demoCovConfig.e3 = true ∧ demoCovConfig.cov_source = true
    ∧ demoCovConfig.e3_cov_rewrite = some ("/build/pkg", "/src")
    ∧ ((pytest_sessionfinish demoCovConfig false 1 demoFS "/tmp/old5").1.rewriterCalls
          = [("/build/pkg", "/src", "/repo" ++ "/.coverage")]
        ∧ (pytest_sessionfinish demoCovConfig false 1 demoFS "/tmp/old5").2
          = (fix_coverage_paths "/build/pkg" "/src" ("/repo" ++ "/.coverage") "/tmp/old5"
              demoFS).1) :=
  ⟨rfl, rfl, rfl,
    (pytest_sessionfinish_rewriter_gated demoCovConfig false 1 demoFS "/tmp/old5").1
      rfl rfl |>.1 "/build/pkg" "/src" rfl⟩

/-- The session configuration used in the exit-status witness: `--e3` set,
coverage inactive, no rewrite pair. -/
def demoPlainConfig : SessionConfig := ⟨true, false, none, "/repo", "linux"⟩

/-- C8: provided the incoming exit status is not already 3, the hook leaves
the session with exit status 3 exactly when the `--e3` option is set and the
module-level error flag is up; and when `--e3` is not set the hook returns
immediately — exit status unchanged and no coverage processing, no rewriter
call, no exclude patterns, no filesystem change. -/
theorem pytest_sessionfinish_exitstatus_spec
    (cfg : SessionConfig) (te : Bool) (es : Nat) (fs : FS) (tmp : String)
    (hes : es ≠ 3) :
    ((pytest_sessionfinish cfg te es fs tmp).1.exitstatus = 3
        ↔ (cfg.e3 = true ∧ te = true))
    ∧ (cfg.e3 = false →
        (pytest_sessionfinish cfg te es fs tmp).1.exitstatus = es
        ∧ (pytest_sessionfinish cfg te es fs tmp).1.covProcessed = false
        ∧ (pytest_sessionfinish cfg te es fs tmp).1.rewriterCalls = []
        ∧ (pytest_sessionfinish cfg te es fs tmp).1.excludes = []
        ∧ (pytest_sessionfinish cfg te es fs tmp).2 = fs) := by
  have hval : (pytest_sessionfinish cfg te es fs tmp).1.exitstatus
      = if cfg.e3 = false then es else if te then 3 else es := by
    by_cases he3 : cfg.e3 = false
    · simp [pytest_sessionfinish, he3]
    · by_cases hcov : cfg.cov_source = false
      · simp [pytest_sessionfinish, he3, hcov]
      · rcases hp : cfg.e3_cov_rewrite with _ | pair
        · simp [pytest_sessionfinish, he3, hcov, hp]
        · rcases h2 : (fix_coverage_paths pair.1 pair.2 (cfg.rootpath ++ "/.coverage")
              tmp fs).2 with _ | e <;>
            simp [pytest_sessionfinish, he3, hcov, hp, h2]
  constructor
  · rw [hval]
    by_cases he3 : cfg.e3 = false
    · simp [he3, hes]
    · have he3t : cfg.e3 = true := by
        cases hb : cfg.e3
        · exact absurd hb he3
        · rfl
      cases te with
      | false => simp [he3t, hes]
      | true => simp [he3t]
  · intro he3
    simp [pytest_sessionfinish, he3]

/-- Witness for `pytest_sessionfinish_exitstatus_spec`: with `--e3` set, an
up error flag, and incoming exit status 1, the final exit status is 3. -/
theorem pytest_sessionfinish_exitstatus_spec_witness :
    (1 : Nat) ≠ 3
    ∧ ((pytest_sessionfinish demoPlainConfig true 1 [] "/tmp/old6").1.exitstatus = 3
        ↔ (demoPlainConfig.e3 = true ∧ true = true)) :=
  ⟨by decide,
    (pytest_sessionfinish_exitstatus_spec demoPlainConfig true 1 [] "/tmp/old6"
      (by decide)).1⟩

/-- The module-level `test_errors` flag of `src/e3/pytest.py` (line 28): its
value when the module is imported. -/
def test_errors : Bool := false

/-- The fields of a pytest test report that `pytest_runtest_makereport`
reads: the phase (`rep.when`), the outcome, the node id, and the long
representation text. -/
structure TestReport where
  when : String
  outcome : String
  nodeid : String
  longreprtext : String

/-- A file write performed by `pytest_runtest_makereport`: either the
creation of a per-test `.diff` file or an append to the `results` file. -/
inductive WriteEvent where
  | diff (path text : String)
  | resultsAppend (path line : String)

/-- `pytest_runtest_makereport` of `src/e3/pytest.py` (lines 191-223), as a
function from the `RESULTS_DIR` environment variable (`none` when unset), a
directory-existence oracle, the report, and the current `test_errors` flag
to the new flag value and the writes performed. The hook returns early when
`RESULTS_DIR` is unset, empty, or not an existing directory; for a "call"
phase report it writes result files; for any other phase it raises the
`test_errors` flag when the outcome is "failed". -/
def pytest_runtest_makereport (results_dir : Option String) (isDir : String → Bool)
    (rep : TestReport) (test_errors_flag : Bool) : Bool × List WriteEvent :=
  match results_dir with
  | none => (test_errors_flag, [])
  | some rd =>
    if rd = "" ∨ isDir rd = false then (test_errors_flag, [])
    else if rep.when = "call" then
      let test_name := (rep.nodeid.replace "/" ".").replace "::" "--"
      (test_errors_flag,
        (if rep.longreprtext = "" then []
         else [WriteEvent.diff (rd ++ "/" ++ test_name ++ ".diff") rep.longreprtext])
          ++ [WriteEvent.resultsAppend (rd ++ "/results")
                (test_name ++ ":" ++ rep.outcome.toUpper ++ "\n")])
    else if rep.outcome = "failed" then (true, [])
    else (test_errors_flag, [])

theorem makereport_fst_none (isDir : String → Bool) (rep : TestReport) (te : Bool) :
    (pytest_runtest_makereport none isDir rep te).1 = te := rfl

theorem makereport_fst_some (d : String) (isDir : String → Bool)
    (rep : TestReport) (te : Bool) :
    (pytest_runtest_makereport (some d) isDir rep te).1
      = if d = "" ∨ isDir d = false then te
        else if rep.when = "call" then te
        else if rep.outcome = "failed" then true
        else te := by
  simp only [pytest_runtest_makereport]
  split_ifs <;> rfl

/-- C9: the `test_errors` flag starts `false`; one run of
`pytest_runtest_makereport` leaves it `true` exactly when it was already
`true` or the hook reached the non-"call" branch with a "failed" outcome
while `RESULTS_DIR` named an existing directory; a "call"-phase report never
changes the flag; and no run ever resets the flag to `false`. -/
theorem test_errors_flag_dynamics :
    test_errors = false
    ∧ (∀ (rd : Option String) (isDir : String → Bool) (rep : TestReport) (te : Bool),
        ((pytest_runtest_makereport rd isDir rep te).1 = true ↔
          (te = true
            ∨ ∃ d, rd = some d ∧ d ≠ "" ∧ isDir d = true
                ∧ rep.when ≠ "call" ∧ rep.outcome = "failed")))
    ∧ (∀ (rd : Option String) (isDir : String → Bool) (rep : TestReport) (te : Bool),
        rep.when = "call" → (pytest_runtest_makereport rd isDir rep te).1 = te)
    ∧ (∀ (rd : Option String) (isDir : String → Bool) (rep : TestReport) (te : Bool),
        te = true → (pytest_runtest_makereport rd isDir rep te).1 = true) := by
  refine ⟨rfl, ?_, ?_, ?_⟩
  · intro rd isDir rep te
    cases rd with
    | none =>
      rw [makereport_fst_none]
      simp
    | some d =>
      rw [makereport_fst_some]
      by_cases hd : d = ""
      · rw [if_pos (Or.inl hd)]
        simp [hd]
      · by_cases hdir : isDir d = true
        · rw [if_neg (by simp [hd, hdir])]
          by_cases hw : rep.when = "call"
          · rw [if_pos hw]
            simp [hw]
          · rw [if_neg hw]
            by_cases ho : rep.outcome = "failed"
            · rw [if_pos ho]
              exact iff_of_true rfl (Or.inr ⟨d, rfl, hd, hdir, hw, ho⟩)
            · rw [if_neg ho]
              simp [ho]
        · have hdf : isDir d = false := by
            cases hx : isDir d
            · rfl
            · exact absurd hx hdir
          rw [if_pos (Or.inr hdf)]
          simp [hdf]
  · intro rd isDir rep te hw
    cases rd with
    | none => exact makereport_fst_none isDir rep te
    | some d =>
      rw [makereport_fst_some]
      split_ifs <;> rfl
  · intro rd isDir rep te hte
    subst hte
    cases rd with
    | none => exact makereport_fst_none isDir rep true
    | some d =>
      rw [makereport_fst_some]
      split_ifs <;> rfl

/-- Witness for `test_errors_flag_dynamics`: a failed setup-phase report
with `RESULTS_DIR` naming an existing directory raises the flag. -/
theorem test_errors_flag_dynamics_witness :
    (pytest_runtest_makereport (some "/results") (fun _ => true)
        ⟨"setup", "failed", "tests/test_a.py::test_x", ""⟩ false).1 = true :=
  (test_errors_flag_dynamics.2.1 (some "/results") (fun _ => true)
      ⟨"setup", "failed", "tests/test_a.py::test_x", ""⟩ false).mpr
    (Or.inr ⟨"/results", rfl, by decide, rfl, by decide, rfl⟩)

/-- The action a `require_tool` fixture takes when the test runs: fail the
test, skip it, or let it proceed. -/
inductive FixtureAction where
  | fail (msg : String)
  | skip (msg : String)
  | run
deriving DecidableEq

/-- `require_tool` of `src/e3/pytest.py` (lines 43-59), as a function of an
oracle `which_found` telling whether `e3.os.fs.which` finds the tool on
`PATH` (truthy result) and of the module-import-time `IN_CI_MODE` value
(`"CI" in os.environ`). It returns the action the generated fixture takes. -/
def require_tool (which_found : String → Bool) (in_ci_mode : Bool)
    (toolname : String) : FixtureAction :=
  if which_found toolname = false then
    if in_ci_mode then FixtureAction.fail (toolname ++ " not available")
    else FixtureAction.skip (toolname ++ " not available")
  else FixtureAction.run

/-- C10: for every tool name, the `require_tool` fixture fails the test with
"<toolname> not available" when the tool is missing and CI mode was detected
at import time, skips the test with the same message when the tool is
missing outside CI mode, and lets the test run when the tool is found. -/
theorem require_tool_spec (which_found : String → Bool) (ci : Bool) (t : String) :
    (which_found t = false → ci = true →
      require_tool which_found ci t = FixtureAction.fail (t ++ " not available"))
    ∧ (which_found t = false → ci = false →
      require_tool which_found ci t = FixtureAction.skip (t ++ " not available"))
    ∧ (which_found t = true → require_tool which_found ci t = FixtureAction.run) := by
  refine ⟨fun h1 h2 => ?_, fun h1 h2 => ?_, fun h1 => ?_⟩
  · simp [require_tool, h1, h2]
  · simp [require_tool, h1, h2]
  · simp [require_tool, h1]

/-- Witness for `require_tool_spec`: in CI mode with no tool on `PATH`, the
fixture fails the test with the expected message. -/
theorem require_tool_spec_witness :
    ((fun _ : String => false) "git" = false ∧ (true : Bool) = true
      ∧ require_tool (fun _ => false) true "git"
          = FixtureAction.fail ("git" ++ " not available")) :=
  ⟨rfl, rfl, (require_tool_spec (fun _ => false) true "git").1 rfl rfl⟩
